import Mathlib

/-!
Verification of the risk-scoring and statistics engine of the healseRA
repository.

The development shallowly embeds the Python code paths that the
specification's claims talk about:

* `DataHandler.calculate_risk_score` — the classifier in
  src/utiles/data_handler.py (5-tier table, defensive coercion,
  try/except wrapper),
* `StreamlitApp.calculate_risk_score` — the 3-tier scorer in
  src/streamlit_app.py,
* `UtilsData.calculate_risk_score` — the 3-tier scorer in
  src/utiles/utils_data_handler.py,
* `ReportGenerator.calculate_risk_statistics` and the hazard grouping of
  src/utiles/report_generator.py.

Python runtime values that flow through these functions (ints, strings,
None) are modelled with the `PyVal` type; numbers are modelled as
integers and float percentages as rationals.
-/

/-- A Python value as it reaches the scoring code: an integer, a string,
or None.  Numeric values are modelled as integers. -/
inductive PyVal where
  | vint (n : Int)
  | vstr (s : String)
  | vnone
deriving DecidableEq, Repr

/-- Python str(v) for the modelled values. -/
def pyStr : PyVal → String
  | .vint n => toString n
  | .vstr s => s
  | .vnone => "None"

/-- Python truthiness of the modelled values: 0, the empty string and
None are falsy. -/
def pyTruthy : PyVal → Bool
  | .vint n => n != 0
  | .vstr s => !s.isEmpty
  | .vnone => false

/-- Python isinstance(v, int). -/
def pyIsInt : PyVal → Bool
  | .vint _ => true
  | _ => false

/-- The integer held by a PyVal known to be an int (0 otherwise). -/
def pyIntValue : PyVal → Int
  | .vint n => n
  | _ => 0

/-- The natural number denoted by a list of decimal digit characters. -/
def digitsToNat (cs : List Char) : Nat :=
  cs.foldl (fun acc c => 10 * acc + (c.toNat - '0'.toNat)) 0

/-- Python int(s) on a string: an optional sign followed by a nonempty
run of digits parses, anything else raises (modelled as none).
Surrounding whitespace, accepted by Python, is not modelled. -/
def parseIntOpt (cs : List Char) : Option Int :=
  match cs with
  | '-' :: rest =>
    if !rest.isEmpty && rest.all Char.isDigit then some (-(digitsToNat rest : Int)) else none
  | '+' :: rest =>
    if !rest.isEmpty && rest.all Char.isDigit then some (digitsToNat rest : Int) else none
  | _ =>
    if !cs.isEmpty && cs.all Char.isDigit then some (digitsToNat cs : Int) else none

/-- Python int(v), as a partial operation: parsing a string fails unless
it is an optionally signed digit string, and int(None) always fails. -/
def pyToIntOpt : PyVal → Option Int
  | .vint n => some n
  | .vstr s => parseIntOpt s.data
  | .vnone => none

/-- Python str.isdigit: the string is nonempty and all characters are
digits. -/
def strIsdigit (s : String) : Bool := !s.data.isEmpty && s.data.all Char.isDigit

namespace DataHandler

/-- One entry of the risk_levels table of
RiskAssessmentDataHandler.__init__ (src/utiles/data_handler.py lines
39-45): a named tier with an inclusive score band, a color and an
action. -/
structure RiskTier where
  name : String
  min : Int
  max : Int
  color : String
  action : String
deriving DecidableEq, Repr

/-- The risk_levels table in its Python insertion order. -/
def risk_levels : List RiskTier :=
  [⟨"매우높음", 16, 20, "#ff4444", "즉시작업중지"⟩,
   ⟨"높음", 12, 15, "#ff8888", "즉시개선"⟩,
   ⟨"보통", 6, 11, "#ffaa44", "계획적개선"⟩,
   ⟨"낮음", 3, 5, "#44ff88", "모니터링"⟩,
   ⟨"매우낮음", 1, 2, "#88ff88", "현상유지"⟩]

/-- The dictionary returned by calculate_risk_score: score, level,
color, action, the (possibly coerced) inputs, and the optional error
message attached by the except-branch. -/
structure RiskResult where
  score : Int
  level : String
  color : String
  action : String
  possibility : Int
  severity : Int
  error : Option String
deriving DecidableEq, Repr

/-- The defensive per-value coercion of calculate_risk_score (lines
165-166): int(v) if str(v).isdigit() else 1. -/
def coerceValue (v : PyVal) : Int :=
  if strIsdigit (pyStr v) then (digitsToNat (pyStr v).data : Nat) else 1

/-- Lines 163-166: when either input is not an int, both are coerced. -/
def coerceInputs (possibility severity : PyVal) : Int × Int :=
  if pyIsInt possibility && pyIsInt severity then
    (pyIntValue possibility, pyIntValue severity)
  else
    (coerceValue possibility, coerceValue severity)

/-- The tier scan of lines 175-180: level starts at 낮음 and the first
tier whose inclusive band contains the score wins. -/
def levelForScore (score : Int) : String :=
  match risk_levels.find? (fun c => decide (c.min ≤ score ∧ score ≤ c.max)) with
  | some c => c.name
  | none => "낮음"

/-- Line 182: the tier metadata looked up by level name, falling back to the 낮음 tier. -/
def levelInfo (level : String) : RiskTier :=
  (risk_levels.find? (fun c => c.name = level)).getD ⟨"낮음", 3, 5, "#44ff88", "모니터링"⟩

/-- The body of the try-block after coercion (lines 168-191): the range
checks raise (modelled as Except.error carrying the ValueError message)
and otherwise the classification dictionary is returned. -/
def checkedRiskScore (possibility severity : Int) : Except String RiskResult :=
  if ¬(1 ≤ possibility ∧ possibility ≤ 5) then
    .error "가능성은 1-5 사이의 값이어야 합니다."
  else if ¬(1 ≤ severity ∧ severity ≤ 4) then
    .error "중대성은 1-4 사이의 값이어야 합니다."
  else
    let score := possibility * severity
    let level := levelForScore score
    let info := levelInfo level
    .ok ⟨score, level, info.color, info.action, possibility, severity, none⟩

/-- RiskAssessmentDataHandler.calculate_risk_score (lines 158-203): the
try-body with the except-branch of lines 193-203, which catches any
raised ValueError and returns the substitute dictionary score=0,
level="오류", action="재계산필요" carrying the error message. -/
def calculate_risk_score (possibility severity : PyVal) : RiskResult :=
  let c := coerceInputs possibility severity
  match checkedRiskScore c.1 c.2 with
  | .ok r => r
  | .error e => ⟨0, "오류", "#cccccc", "재계산필요", c.1, c.2, some e⟩

end DataHandler

namespace StreamlitApp

/-- calculate_risk_score of src/streamlit_app.py (lines 373-392): inputs
falsy in Python become 0, strings are parsed with int(), the product is
bucketed by the 3-tier thresholds, and any exception yields the
fallback triple (0, "미평가", "gray"). -/
def calculate_risk_score (possibility severity : PyVal) : Int × String × String :=
  let p := if pyTruthy possibility then pyToIntOpt possibility else some 0
  let s := if pyTruthy severity then pyToIntOpt severity else some 0
  match p, s with
  | some p, some s =>
    let score := p * s
    if 12 ≤ score then (score, "높음", "red")
    else if 6 ≤ score then (score, "보통", "orange")
    else (score, "낮음", "green")
  | _, _ => (0, "미평가", "gray")

end StreamlitApp

namespace UtilsData

/-- The dictionary returned by RiskAssessmentData.calculate_risk_score
in src/utiles/utils_data_handler.py. -/
structure RiskResult where
  score : Int
  level : String
  action : String
  color : String
deriving DecidableEq, Repr

/-- RiskAssessmentData.calculate_risk_score (src/utiles/
utils_data_handler.py lines 37-59): unconditional product and 3-tier
thresholds, no validation. -/
def calculate_risk_score (possibility severity : Int) : RiskResult :=
  let score := possibility * severity
  if 12 ≤ score then ⟨score, "높음", "즉시 개선/작업중지", "red"⟩
  else if 6 ≤ score then ⟨score, "보통", "개선", "orange"⟩
  else ⟨score, "낮음", "모니터링", "green"⟩

end UtilsData

namespace ReportGenerator

/-- The three buckets of the statistics routine of
src/utiles/report_generator.py. -/
inductive RiskBucket where
  | high
  | medium
  | low
deriving DecidableEq, Repr

/-- An assessment record as the duck-typed dictionaries reaching
_calculate_risk_statistics and _create_statistics_sheet: every field the
statistics code reads may be absent (none models a missing key). -/
structure Record where
  possibility : Option PyVal
  severity : Option PyVal
  risk_score : Option PyVal
  risk_level : Option String
  hazard_factor : Option String
deriving DecidableEq, Repr

/-- The per-item bucketing chain of _calculate_risk_statistics (lines
396-414): risk_score is read with default 0 and risk_level with the empty default,
then the if/elif chain — numeric score at least 12 is high, at least 6
medium, positive low; otherwise the chain falls through to the
risk_level string, and anything unrecognized lands in low. -/
def bucketOf (item : Record) : RiskBucket :=
  let risk_score := item.risk_score.getD (.vint 0)
  let risk_level := item.risk_level.getD ""
  match risk_score with
  | .vint n =>
    if 12 ≤ n then .high
    else if 6 ≤ n then .medium
    else if 0 < n then .low
    else if risk_level = "높음" then .high
    else if risk_level = "보통" then .medium
    else if risk_level = "낮음" then .low
    else .low
  | _ =>
    if risk_level = "높음" then .high
    else if risk_level = "보통" then .medium
    else if risk_level = "낮음" then .low
    else .low

/-- The dictionary returned by _calculate_risk_statistics; the float
percentages are modelled as rationals. -/
structure RiskStats where
  total : Nat
  high : Nat
  medium : Nat
  low : Nat
  high_percent : ℚ
  medium_percent : ℚ
  low_percent : ℚ
deriving DecidableEq, Repr

/-- RiskAssessmentReportGenerator._calculate_risk_statistics (lines
382-424): the empty collection short-circuits to the zero summary,
otherwise each record is counted into exactly one bucket by the chain
above and the percentages are count/total*100. -/
def calculate_risk_statistics (assessment_data : List Record) : RiskStats :=
  let total := assessment_data.length
  if total = 0 then ⟨0, 0, 0, 0, 0, 0, 0⟩
  else
    let high := assessment_data.countP (fun r => bucketOf r = .high)
    let medium := assessment_data.countP (fun r => bucketOf r = .medium)
    let low := assessment_data.countP (fun r => bucketOf r = .low)
    ⟨total, high, medium, low,
     (high : ℚ) / (total : ℚ) * 100,
     (medium : ℚ) / (total : ℚ) * 100,
     (low : ℚ) / (total : ℚ) * 100⟩

/-- Python dictionary lookup with default 0, over a dictionary modelled
as a key-value list in insertion order. -/
def getCount : List (String × Nat) → String → Nat
  | [], _ => 0
  | (k', v) :: rest, k => if k' = k then v else getCount rest k

/-- The Python counter update — get the count with default 0, add one,
store it back: update in place when the key exists, append it otherwise,
preserving dictionary insertion order. -/
def bumpCount : List (String × Nat) → String → List (String × Nat)
  | [], k => [(k, 1)]
  | (k', v) :: rest, k =>
    if k' = k then (k', v + 1) :: rest else (k', v) :: bumpCount rest k

/-- The fresh inner dictionary of line 360, mapping the three level
names 높음, 보통, 낮음 and the total counter 총계 to zero. -/
def initInner : List (String × Nat) :=
  [("높음", 0), ("보통", 0), ("낮음", 0), ("총계", 0)]

/-- One loop iteration of the hazard grouping (lines 354-363): the
grouping key is hazard_factor with default 기타, the level is
risk_level with default 미정; a new hazard gets a fresh inner
dictionary, then the level counter and the 총계 counter of that hazard
are incremented. -/
def addHazardItem (acc : List (String × List (String × Nat))) (hazard level : String) :
    List (String × List (String × Nat)) :=
  match acc with
  | [] => [(hazard, bumpCount (bumpCount initInner level) "총계")]
  | (k, d) :: rest =>
    if k = hazard then (k, bumpCount (bumpCount d level) "총계") :: rest
    else (k, d) :: addHazardItem rest hazard level

/-- The hazard_stats dictionary built by the loop of lines 354-363. -/
def hazard_statistics (assessment_data : List Record) :
    List (String × List (String × Nat)) :=
  assessment_data.foldl
    (fun acc item =>
      addHazardItem acc (item.hazard_factor.getD "기타") (item.risk_level.getD "미정"))
    []

/-- The sum over all hazard groups of their 총계 (total) counters. -/
def sumTotals (st : List (String × List (String × Nat))) : Nat :=
  (st.map (fun p => getCount p.2 "총계")).sum

end ReportGenerator

/-- Stated from the claim's words, for comparison with the source: the
bucket dictated by a positive numeric score alone — at least 12 high,
at least 6 medium, otherwise low. -/
def scoreBucketSpec (n : Int) : ReportGenerator.RiskBucket :=
  if 12 ≤ n then .high else if 6 ≤ n then .medium else .low

/-- Stated from the claim's words, for comparison with the source: the
bucket dictated by the stored risk_level string when consulted — the
high label to high, the medium label to medium, anything else low. -/
def levelBucketSpec (level : String) : ReportGenerator.RiskBucket :=
  if level = "높음" then .high else if level = "보통" then .medium else .low

section HelperLemmas

/-- On integer inputs the data_handler classifier is the try-body with
the except-branch folded around it. -/
theorem calculate_risk_score_int (p s : Int) :
    DataHandler.calculate_risk_score (.vint p) (.vint s) =
      match DataHandler.checkedRiskScore p s with
      | .ok r => r
      | .error e => ⟨0, "오류", "#cccccc", "재계산필요", p, s, some e⟩ := rfl

/-- An out-of-range likelihood makes the try-body raise the likelihood
ValueError. -/
theorem checked_error_possibility (p s : Int) (h : ¬(1 ≤ p ∧ p ≤ 5)) :
    DataHandler.checkedRiskScore p s = .error "가능성은 1-5 사이의 값이어야 합니다." := by
  unfold DataHandler.checkedRiskScore
  rw [if_pos h]

/-- An out-of-range severity makes the try-body raise the severity
ValueError. -/
theorem checked_error_severity (p s : Int) (hp : 1 ≤ p ∧ p ≤ 5) (h : ¬(1 ≤ s ∧ s ≤ 4)) :
    DataHandler.checkedRiskScore p s = .error "중대성은 1-4 사이의 값이어야 합니다." := by
  unfold DataHandler.checkedRiskScore
  rw [if_neg (not_not_intro hp), if_pos h]

/-- When the first input is not an int, both inputs go through the
per-value coercion. -/
theorem coerceInputs_nonint (v s : PyVal) (hv : pyIsInt v = false) :
    DataHandler.coerceInputs v s =
      (DataHandler.coerceValue v, DataHandler.coerceValue s) := by
  unfold DataHandler.coerceInputs
  rw [hv]
  simp

/-- A value whose string form is not all digits coerces to 1. -/
theorem coerceValue_nondigit (v : PyVal) (hdig : strIsdigit (pyStr v) = false) :
    DataHandler.coerceValue v = 1 := by
  unfold DataHandler.coerceValue
  rw [hdig]
  simp

/-- Every record lands in exactly one of the three buckets, so the three
bucket counts always sum to the number of records. -/
theorem countP_buckets (data : List ReportGenerator.Record) :
    data.countP (fun r => ReportGenerator.bucketOf r = .high)
      + data.countP (fun r => ReportGenerator.bucketOf r = .medium)
      + data.countP (fun r => ReportGenerator.bucketOf r = .low) = data.length := by
  induction data with
  | nil => rfl
  | cons r rest ih =>
    simp only [List.countP_cons, List.length_cons]
    cases h : ReportGenerator.bucketOf r <;> simp [h] <;> omega

end HelperLemmas

/-- C4: for every integer likelihood in 1-5 and severity in 1-4, the
score field returned by the data_handler classifier and by the
utils_data_handler classifier equals likelihood * severity. -/
theorem classify_score_eq_product (p s : Int)
    (hp1 : 1 ≤ p) (hp5 : p ≤ 5) (hs1 : 1 ≤ s) (hs4 : s ≤ 4) :
    (DataHandler.calculate_risk_score (.vint p) (.vint s)).score = p * s ∧
    (UtilsData.calculate_risk_score p s).score = p * s := by
  interval_cases p <;> interval_cases s <;> exact ⟨by decide, by decide⟩

/-- Witness for C4 at likelihood 3 and severity 4. -/
theorem classify_score_eq_product_witness :
    (DataHandler.calculate_risk_score (.vint 3) (.vint 4)).score = 3 * 4 ∧
    (UtilsData.calculate_risk_score 3 4).score = 3 * 4 :=
  classify_score_eq_product 3 4 (by decide) (by decide) (by decide) (by decide)

/-- C5: the five inclusive bands of the risk_levels table partition the
score range 1-20 — every integer score in that range is contained in
exactly one band. -/
theorem tier_bands_partition (sc : Int) (h1 : 1 ≤ sc) (h20 : sc ≤ 20) :
    DataHandler.risk_levels.countP (fun c => c.min ≤ sc ∧ sc ≤ c.max) = 1 := by
  interval_cases sc <;> decide

/-- Witness for C5 at score 7. -/
theorem tier_bands_partition_witness :
    DataHandler.risk_levels.countP (fun c => c.min ≤ (7 : Int) ∧ (7 : Int) ≤ c.max) = 1 :=
  tier_bands_partition 7 (by decide) (by decide)

/-- C6: the concrete scenarios of the 5-tier table — (5,4) scores 20
with level 매우높음 (very-high) and action 즉시작업중지 (stop work
immediately); (3,4) scores 12 with level 높음 (high); (2,3) scores 6
with level 보통 (medium); (1,3) scores 3 with level 낮음 (low); (1,1)
scores 1 with level 매우낮음 (very-low) and action 현상유지 (maintain
current state). -/
theorem classify_concrete_scenarios :
    DataHandler.calculate_risk_score (.vint 5) (.vint 4) =
      ⟨20, "매우높음", "#ff4444", "즉시작업중지", 5, 4, none⟩ ∧
    DataHandler.calculate_risk_score (.vint 3) (.vint 4) =
      ⟨12, "높음", "#ff8888", "즉시개선", 3, 4, none⟩ ∧
    DataHandler.calculate_risk_score (.vint 2) (.vint 3) =
      ⟨6, "보통", "#ffaa44", "계획적개선", 2, 3, none⟩ ∧
    DataHandler.calculate_risk_score (.vint 1) (.vint 3) =
      ⟨3, "낮음", "#44ff88", "모니터링", 1, 3, none⟩ ∧
    DataHandler.calculate_risk_score (.vint 1) (.vint 1) =
      ⟨1, "매우낮음", "#88ff88", "현상유지", 1, 1, none⟩ :=
  ⟨by decide, by decide, by decide, by decide, by decide⟩

/-- C7: the statistics routine on an empty record collection returns the
zero-filled summary — total 0, every count 0 and every percent 0 — via
its explicit early return, so it never divides by zero. -/
theorem summarize_empty_zero :
    ReportGenerator.calculate_risk_statistics [] = ⟨0, 0, 0, 0, 0, 0, 0⟩ := rfl

/-- C3: for every non-empty record collection the summary is internally
consistent — the three per-level counts sum to the total, and the three
per-level percentages (count/total*100, computed in exact rational
arithmetic here) sum to exactly 100. -/
theorem statistics_counts_and_percents (data : List ReportGenerator.Record)
    (h : data ≠ []) :
    (ReportGenerator.calculate_risk_statistics data).high
      + (ReportGenerator.calculate_risk_statistics data).medium
      + (ReportGenerator.calculate_risk_statistics data).low
      = (ReportGenerator.calculate_risk_statistics data).total ∧
    (ReportGenerator.calculate_risk_statistics data).high_percent
      + (ReportGenerator.calculate_risk_statistics data).medium_percent
      + (ReportGenerator.calculate_risk_statistics data).low_percent = 100 := by
  have hlen : data.length ≠ 0 := fun hl => h (List.length_eq_zero.mp hl)
  have hsum := countP_buckets data
  simp only [ReportGenerator.calculate_risk_statistics, if_neg hlen]
  refine ⟨hsum, ?_⟩
  have hq : ((data.countP (fun r => ReportGenerator.bucketOf r = .high) : ℚ)
      + (data.countP (fun r => ReportGenerator.bucketOf r = .medium) : ℚ)
      + (data.countP (fun r => ReportGenerator.bucketOf r = .low) : ℚ))
      = (data.length : ℚ) := by exact_mod_cast hsum
  have hlq : (data.length : ℚ) ≠ 0 := Nat.cast_ne_zero.mpr hlen
  field_simp
  linarith

/-- Witness for C3 on a concrete one-record collection. -/
theorem statistics_counts_and_percents_witness :
    (ReportGenerator.calculate_risk_statistics [⟨none, none, some (.vint 15), none, none⟩]).high
      + (ReportGenerator.calculate_risk_statistics [⟨none, none, some (.vint 15), none, none⟩]).medium
      + (ReportGenerator.calculate_risk_statistics [⟨none, none, some (.vint 15), none, none⟩]).low
      = (ReportGenerator.calculate_risk_statistics [⟨none, none, some (.vint 15), none, none⟩]).total ∧
    (ReportGenerator.calculate_risk_statistics [⟨none, none, some (.vint 15), none, none⟩]).high_percent
      + (ReportGenerator.calculate_risk_statistics [⟨none, none, some (.vint 15), none, none⟩]).medium_percent
      + (ReportGenerator.calculate_risk_statistics [⟨none, none, some (.vint 15), none, none⟩]).low_percent
      = 100 :=
  statistics_counts_and_percents [⟨none, none, some (.vint 15), none, none⟩] (by decide)

/-- C2 counterexample: an unscored record carrying likelihood 3 and
severity 3 is counted in the low bucket, while a record carrying the
level that the classifier returns for (3,3) is counted in the medium
bucket — the statistics routine does not classify unscored records on
the fly. -/
theorem unscored_record_diverges_from_classifier :
    ReportGenerator.bucketOf ⟨some (.vint 3), some (.vint 3), none, none, none⟩ =
      ReportGenerator.RiskBucket.low ∧
    ReportGenerator.bucketOf
      ⟨none, none, none, some (DataHandler.calculate_risk_score (.vint 3) (.vint 3)).level, none⟩ =
      ReportGenerator.RiskBucket.medium ∧
    ReportGenerator.RiskBucket.low ≠ ReportGenerator.RiskBucket.medium :=
  ⟨by decide, by decide, by decide⟩

/-- C2 (amended): the statistics routine never reclassifies — a record
lacking both a stored risk_score and a stored risk_level is counted in
the default low bucket whatever its likelihood/severity fields hold —
but no record is dropped: the three bucket counts always sum to the
number of records. -/
theorem unscored_records_default_low_not_reclassified :
    (∀ (ps sv : Option PyVal) (hf : Option String),
       ReportGenerator.bucketOf ⟨ps, sv, none, none, hf⟩ = .low) ∧
    (∀ data : List ReportGenerator.Record,
       data.countP (fun r => ReportGenerator.bucketOf r = .high)
         + data.countP (fun r => ReportGenerator.bucketOf r = .medium)
         + data.countP (fun r => ReportGenerator.bucketOf r = .low) = data.length) :=
  ⟨fun _ _ _ => rfl, countP_buckets⟩

/-- C10 counterexample: for a record whose risk_score is the number -3
(present, numeric and nonzero), the routine still consults risk_level —
two records differing only in risk_level land in different buckets — so
risk_level is not consulted only when risk_score is absent, zero or
non-numeric. -/
theorem risk_level_consulted_for_negative_score :
    ReportGenerator.bucketOf ⟨none, none, some (.vint (-3)), some "높음", none⟩ =
      ReportGenerator.RiskBucket.high ∧
    ReportGenerator.bucketOf ⟨none, none, some (.vint (-3)), some "낮음", none⟩ =
      ReportGenerator.RiskBucket.low ∧
    (-3 : Int) ≠ 0 :=
  ⟨by decide, by decide, by decide⟩

/-- C10 (amended): a positive numeric risk_score is bucketed by score
alone (at least 12 high, at least 6 medium, otherwise low) with the
stored risk_level ignored — in particular score 15 with level 낮음
counts as high; risk_level is consulted exactly when risk_score is
absent, zero or negative, or non-numeric; and a record with neither
defaults to the low bucket. -/
theorem score_precedence_level_fallback :
    (∀ (n : Int) (ps sv : Option PyVal) (rl hf : Option String), 0 < n →
       ReportGenerator.bucketOf ⟨ps, sv, some (.vint n), rl, hf⟩ = scoreBucketSpec n) ∧
    (ReportGenerator.bucketOf ⟨none, none, some (.vint 15), some "낮음", none⟩ =
      ReportGenerator.RiskBucket.high) ∧
    (∀ (ps sv : Option PyVal) (rl hf : Option String),
       ReportGenerator.bucketOf ⟨ps, sv, none, rl, hf⟩ = levelBucketSpec (rl.getD "")) ∧
    (∀ (n : Int) (ps sv : Option PyVal) (rl hf : Option String), n ≤ 0 →
       ReportGenerator.bucketOf ⟨ps, sv, some (.vint n), rl, hf⟩ = levelBucketSpec (rl.getD "")) ∧
    (∀ (s : String) (ps sv : Option PyVal) (rl hf : Option String),
       ReportGenerator.bucketOf ⟨ps, sv, some (.vstr s), rl, hf⟩ = levelBucketSpec (rl.getD "")) ∧
    (∀ (ps sv : Option PyVal) (rl hf : Option String),
       ReportGenerator.bucketOf ⟨ps, sv, some .vnone, rl, hf⟩ = levelBucketSpec (rl.getD "")) ∧
    (ReportGenerator.bucketOf ⟨none, none, none, none, none⟩ = ReportGenerator.RiskBucket.low) := by
  refine ⟨?_, by decide, ?_, ?_, ?_, ?_, by decide⟩
  · intro n ps sv rl hf hn
    simp only [ReportGenerator.bucketOf, scoreBucketSpec, Option.getD_some]
    by_cases h12 : 12 ≤ n
    · simp [h12]
    · by_cases h6 : 6 ≤ n
      · simp [h12, h6]
      · simp [h12, h6, hn]
  · intro ps sv rl hf
    simp only [ReportGenerator.bucketOf, levelBucketSpec, Option.getD_none]
    by_cases h1 : rl.getD "" = "높음" <;> by_cases h2 : rl.getD "" = "보통" <;>
      by_cases h3 : rl.getD "" = "낮음" <;> simp [h1, h2, h3]
  · intro n ps sv rl hf hn
    have h12 : ¬(12 ≤ n) := by omega
    have h6 : ¬(6 ≤ n) := by omega
    have h0 : ¬(0 < n) := by omega
    simp only [ReportGenerator.bucketOf, levelBucketSpec, Option.getD_some]
    by_cases h1 : rl.getD "" = "높음" <;> by_cases h2 : rl.getD "" = "보통" <;>
      by_cases h3 : rl.getD "" = "낮음" <;> simp [h1, h2, h3, h12, h6, h0]
  · intro s ps sv rl hf
    simp only [ReportGenerator.bucketOf, levelBucketSpec, Option.getD_some]
    by_cases h1 : rl.getD "" = "높음" <;> by_cases h2 : rl.getD "" = "보통" <;>
      by_cases h3 : rl.getD "" = "낮음" <;> simp [h1, h2, h3]
  · intro ps sv rl hf
    simp only [ReportGenerator.bucketOf, levelBucketSpec, Option.getD_some]
    by_cases h1 : rl.getD "" = "높음" <;> by_cases h2 : rl.getD "" = "보통" <;>
      by_cases h3 : rl.getD "" = "낮음" <;> simp [h1, h2, h3]

/-- Witness for C10 at score 7. -/
theorem score_precedence_level_fallback_witness :
    ReportGenerator.bucketOf ⟨none, none, some (.vint 7), some "낮음", none⟩ =
      scoreBucketSpec 7 :=
  score_precedence_level_fallback.1 7 none none (some "낮음") none (by decide)

/-- C1 counterexample: with likelihood 0 the try-body raises the
likelihood ValueError, but calculate_risk_score catches it itself and
returns the substitute dictionary (score 0, level 오류, action
재계산필요) instead of letting the error reach the caller. -/
theorem validation_error_caught_not_propagated :
    DataHandler.checkedRiskScore 0 1 = .error "가능성은 1-5 사이의 값이어야 합니다." ∧
    DataHandler.calculate_risk_score (.vint 0) (.vint 1) =
      ⟨0, "오류", "#cccccc", "재계산필요", 0, 1, some "가능성은 1-5 사이의 값이어야 합니다."⟩ :=
  ⟨rfl, by decide⟩

/-- C1 (amended): a likelihood outside 1-5 or a severity outside 1-4
makes the try-body raise a ValueError naming the violated bound, but
the classifier catches the exception itself and returns a substitute
result — score 0, level 오류, action 재계산필요, the message attached
in the error field — so nothing propagates to the caller. -/
theorem invalid_input_returns_substitute :
    (∀ p s : Int, (p < 1 ∨ 5 < p) →
       DataHandler.calculate_risk_score (.vint p) (.vint s) =
         ⟨0, "오류", "#cccccc", "재계산필요", p, s, some "가능성은 1-5 사이의 값이어야 합니다."⟩) ∧
    (∀ p s : Int, 1 ≤ p → p ≤ 5 → (s < 1 ∨ 4 < s) →
       DataHandler.calculate_risk_score (.vint p) (.vint s) =
         ⟨0, "오류", "#cccccc", "재계산필요", p, s, some "중대성은 1-4 사이의 값이어야 합니다."⟩) := by
  constructor
  · intro p s hp
    rw [calculate_risk_score_int, checked_error_possibility p s (by omega)]
  · intro p s hp1 hp5 hs
    rw [calculate_risk_score_int, checked_error_severity p s ⟨hp1, hp5⟩ (by omega)]

/-- Witness for C1 at likelihood 6. -/
theorem invalid_input_returns_substitute_witness :
    DataHandler.calculate_risk_score (.vint 6) (.vint 2) =
      ⟨0, "오류", "#cccccc", "재계산필요", 6, 2, some "가능성은 1-5 사이의 값이어야 합니다."⟩ :=
  invalid_input_returns_substitute.1 6 2 (by omega)

/-- C9 counterexample: handed the non-numeric likelihood abc, the
data_handler classifier itself substitutes the domain minimum 1 and
returns a successful classification — the substitution is not confined
to an adapter layer; and the streamlit adapter substitutes 0, not the
domain minimum, for a missing likelihood. -/
theorem substitution_inside_classifier :
    DataHandler.calculate_risk_score (.vstr "abc") (.vint 3) =
      ⟨3, "낮음", "#44ff88", "모니터링", 1, 3, none⟩ ∧
    StreamlitApp.calculate_risk_score .vnone (.vint 3) = (0, "낮음", "green") :=
  ⟨by decide, by decide⟩

/-- C9 (amended): the defensive coercion lives inside the data_handler
classifier itself — whenever an input is not an int and its string form
is not all digits, calculate_risk_score behaves exactly as if called
with the domain minimum 1 (and the other value coerced the same way);
the streamlit-layer scorer meanwhile coerces a missing (falsy) value to
0, yielding score 0 and level 낮음, and an unparsable string to the
fallback triple (0, 미평가, gray). -/
theorem coercion_in_classifier_and_adapter :
    (∀ v s : PyVal, pyIsInt v = false → strIsdigit (pyStr v) = false →
       DataHandler.calculate_risk_score v s =
         DataHandler.calculate_risk_score (.vint 1) (.vint (DataHandler.coerceValue s))) ∧
    (StreamlitApp.calculate_risk_score .vnone (.vint 3) = (0, "낮음", "green")) ∧
    (StreamlitApp.calculate_risk_score (.vstr "abc") (.vint 3) = (0, "미평가", "gray")) := by
  refine ⟨?_, by decide, by decide⟩
  intro v s hv hdig
  have h1 : DataHandler.coerceInputs v s =
      DataHandler.coerceInputs (.vint 1) (.vint (DataHandler.coerceValue s)) := by
    rw [coerceInputs_nonint v s hv, coerceValue_nondigit v hdig]
    rfl
  simp only [DataHandler.calculate_risk_score]
  rw [h1]

/-- Witness for C9 with the non-numeric likelihood x. -/
theorem coercion_in_classifier_witness :
    DataHandler.calculate_risk_score (.vstr "x") (.vint 2) =
      DataHandler.calculate_risk_score (.vint 1) (.vint (DataHandler.coerceValue (.vint 2))) :=
  coercion_in_classifier_and_adapter.1 (.vstr "x") (.vint 2) (by decide) (by decide)

section HazardLemmas

/-- Bumping a key increments exactly that key's counter. -/
theorem getCount_bumpCount_self (d : List (String × Nat)) (k : String) :
    ReportGenerator.getCount (ReportGenerator.bumpCount d k) k =
      ReportGenerator.getCount d k + 1 := by
  induction d with
  | nil => simp [ReportGenerator.bumpCount, ReportGenerator.getCount]
  | cons p rest ih =>
    obtain ⟨k', v⟩ := p
    by_cases h : k' = k <;>
      simp [ReportGenerator.bumpCount, ReportGenerator.getCount, h, ih]

/-- Bumping one key leaves every other key's counter unchanged. -/
theorem getCount_bumpCount_other (d : List (String × Nat)) (k k' : String) (h : k ≠ k') :
    ReportGenerator.getCount (ReportGenerator.bumpCount d k') k =
      ReportGenerator.getCount d k := by
  induction d with
  | nil => simp [ReportGenerator.bumpCount, ReportGenerator.getCount, Ne.symm h]
  | cons p rest ih =>
    obtain ⟨k'', v⟩ := p
    by_cases h2 : k'' = k' <;> by_cases h3 : k'' = k <;>
      simp_all [ReportGenerator.bumpCount, ReportGenerator.getCount]

/-- Adding one item to the hazard grouping raises the sum of the group
totals by exactly one, provided the item's level string is not the
reserved counter name 총계. -/
theorem sumTotals_addHazardItem (acc : List (String × List (String × Nat)))
    (hazard level : String) (hlv : level ≠ "총계") :
    ReportGenerator.sumTotals (ReportGenerator.addHazardItem acc hazard level) =
      ReportGenerator.sumTotals acc + 1 := by
  have hbump : ∀ d : List (String × Nat),
      ReportGenerator.getCount
          (ReportGenerator.bumpCount (ReportGenerator.bumpCount d level) "총계") "총계" =
        ReportGenerator.getCount d "총계" + 1 := by
    intro d
    rw [getCount_bumpCount_self, getCount_bumpCount_other _ _ _ (Ne.symm hlv)]
  induction acc with
  | nil =>
    simp only [ReportGenerator.addHazardItem, ReportGenerator.sumTotals, List.map_cons,
      List.map_nil, List.sum_cons, List.sum_nil, hbump]
    rfl
  | cons p rest ih =>
    obtain ⟨k, d⟩ := p
    by_cases h : k = hazard
    · simp only [ReportGenerator.addHazardItem, if_pos h, ReportGenerator.sumTotals,
        List.map_cons, List.sum_cons, hbump]
      omega
    · simp only [ReportGenerator.addHazardItem, if_neg h, ReportGenerator.sumTotals,
        List.map_cons, List.sum_cons] at ih ⊢
      omega

/-- The hazard-grouping fold counts every record exactly once: the group
totals sum to the number of records, for any starting accumulator. -/
theorem sumTotals_foldl (data : List ReportGenerator.Record)
    (h : ∀ item ∈ data, item.risk_level ≠ some "총계") :
    ∀ acc, ReportGenerator.sumTotals
        (data.foldl
          (fun acc item =>
            ReportGenerator.addHazardItem acc (item.hazard_factor.getD "기타")
              (item.risk_level.getD "미정"))
          acc) =
      ReportGenerator.sumTotals acc + data.length := by
  induction data with
  | nil => intro acc; simp
  | cons r rest ih =>
    intro acc
    have hr : r.risk_level.getD "미정" ≠ "총계" := by
      have hmem := h r (List.mem_cons_self r rest)
      cases hrl : r.risk_level with
      | none => decide
      | some s =>
        rw [Option.getD_some]
        intro hcontra
        exact hmem (by rw [hrl, hcontra])
    simp only [List.foldl_cons, List.length_cons]
    rw [ih (fun i hi => h i (List.mem_cons_of_mem r hi)) _,
      sumTotals_addHazardItem _ _ _ hr]
    omega

end HazardLemmas

/-- C8 counterexample: a record whose hazard_factor is the empty string
is grouped under its own empty-string key, while a record missing the
key is grouped under the explicit 기타 (other) bucket — missing and
empty keys do not share a single unclassified bucket. -/
theorem empty_key_not_in_other_bucket :
    (ReportGenerator.hazard_statistics [⟨none, none, none, none, some ""⟩]).map Prod.fst =
      [""] ∧
    (ReportGenerator.hazard_statistics [⟨none, none, none, none, none⟩]).map Prod.fst =
      ["기타"] ∧
    ("" : String) ≠ "기타" :=
  ⟨by decide, by decide, by decide⟩

/-- C8 (amended): a record missing the hazard_factor key falls into the
explicit 기타 (other) bucket, a record whose hazard_factor is the empty
string forms its own empty-string bucket, and in all cases no record is
excluded from the grouped counts — the per-group totals sum to the
number of records (as long as no record stores the reserved level name
총계, which would collide with the total counter). -/
theorem grouped_breakdown_buckets_and_totals :
    (∀ item : ReportGenerator.Record, item.hazard_factor = none →
       (ReportGenerator.hazard_statistics [item]).map Prod.fst = ["기타"]) ∧
    (∀ item : ReportGenerator.Record, item.hazard_factor = some "" →
       (ReportGenerator.hazard_statistics [item]).map Prod.fst = [""]) ∧
    (∀ data : List ReportGenerator.Record,
       (∀ item ∈ data, item.risk_level ≠ some "총계") →
       ReportGenerator.sumTotals (ReportGenerator.hazard_statistics data) = data.length) := by
  refine ⟨?_, ?_, ?_⟩
  · intro item h
    simp [ReportGenerator.hazard_statistics, ReportGenerator.addHazardItem, h]
  · intro item h
    simp [ReportGenerator.hazard_statistics, ReportGenerator.addHazardItem, h]
  · intro data h
    have := sumTotals_foldl data h []
    simpa [ReportGenerator.sumTotals] using this

/-- Witness for C8 on a two-record collection, one record missing the
key and one with the empty-string key. -/
theorem grouped_breakdown_totals_witness :
    ReportGenerator.sumTotals
        (ReportGenerator.hazard_statistics
          [⟨none, none, none, none, some ""⟩, ⟨none, none, none, none, none⟩]) = 2 :=
  grouped_breakdown_buckets_and_totals.2.2
    [⟨none, none, none, none, some ""⟩, ⟨none, none, none, none, none⟩] (by decide)
